import Mathlib

/-!
Verification of the Yoga-Tracker Streamlit application (`src/main.py`)
against its natural-language specification.

The Python program is shallowly embedded: the two assessment dictionaries
and the client-profile dictionary become Lean structures, the prompt
f-strings become string-building functions, the chart/PDF table builders
become list-building functions, the LLM call is modelled by passing an
oracle `ChatRequest → ChatResponse` and logging the requests made, and the
diet-plan parse loop of `create_diet_pdf` becomes a fuel-indexed recursive
function (the fuel models the number of iterations of the Python `while`
loop; a result of `none` for every fuel value means the loop never exits).
-/

/-- One assessment record, matching `default_data` in
`initialize_session_state` (src/main.py lines 55-77): seventeen integer
scores and three free-text fields. -/
structure Assessment where
  flexibility : ℤ
  strength : ℤ
  balance : ℤ
  pain : ℤ
  posture : ℤ
  breathing : ℤ
  spine : ℤ
  hips : ℤ
  shoulders : ℤ
  core : ℤ
  stress : ℤ
  energy : ℤ
  focus : ℤ
  sleep : ℤ
  anxiety : ℤ
  mood : ℤ
  mindfulness : ℤ
  notes : String
  limitations : String
  symptoms : String
deriving DecidableEq

/-- The `default_data` dictionary of `initialize_session_state`
(src/main.py lines 56-77): every score 0, every text field empty. -/
def defaultAssessment : Assessment :=
  { flexibility := 0, strength := 0, balance := 0, pain := 0, posture := 0
    breathing := 0, spine := 0, hips := 0, shoulders := 0, core := 0
    stress := 0, energy := 0, focus := 0, sleep := 0, anxiety := 0
    mood := 0, mindfulness := 0, notes := "", limitations := "", symptoms := "" }

/-- The client-profile dictionary initialized at the start of `main`
(src/main.py lines 714-738). -/
structure ClientInfo where
  name : String
  age : ℤ
  occupation : String
  previous_yoga_experience : String
  primary_goals : List String
  specific_concerns : String
  work_activity_level : String
  stress_sources : List String
  exercise_routine : String
  sleep_hours : ℤ
  diet_type : String
  current_medications : String
  height : ℤ
  weight : ℤ
  target_weight : ℤ
  dietary_restrictions : List String
  food_allergies : String
  preferred_cuisine : List String
  meal_prep_time : ℤ
  medical_conditions : String
  digestive_issues : String
  health_goals : List String
  nutritional_needs : String
deriving DecidableEq

/-- The initial `client_info` values of `main` (src/main.py lines 714-738). -/
def defaultClientInfo : ClientInfo :=
  { name := "", age := 0, occupation := "", previous_yoga_experience := ""
    primary_goals := [], specific_concerns := "", work_activity_level := ""
    stress_sources := [], exercise_routine := "", sleep_hours := 7
    diet_type := "", current_medications := "", height := 170, weight := 70
    target_weight := 70, dietary_restrictions := [], food_allergies := ""
    preferred_cuisine := [], meal_prep_time := 30, medical_conditions := ""
    digestive_issues := "", health_goals := [], nutritional_needs := "" }

/-- The `physical_metrics` dictionary built by `create_comparison_charts`
(src/main.py lines 102-113), as an association list in insertion order. -/
def physical_metrics (before_data after_data : Assessment) : List (String × List ℤ) :=
  [("Flexibility", [before_data.flexibility, after_data.flexibility]),
   ("Strength", [before_data.strength, after_data.strength]),
   ("Balance", [before_data.balance, after_data.balance]),
   ("Pain Level", [before_data.pain, after_data.pain]),
   ("Posture", [before_data.posture, after_data.posture]),
   ("Breathing", [before_data.breathing, after_data.breathing]),
   ("Spine", [before_data.spine, after_data.spine]),
   ("Hips", [before_data.hips, after_data.hips]),
   ("Shoulders", [before_data.shoulders, after_data.shoulders]),
   ("Core", [before_data.core, after_data.core])]

/-- The `mental_metrics` dictionary built by `create_comparison_charts`
(src/main.py lines 116-124), as an association list in insertion order. -/
def mental_metrics (before_data after_data : Assessment) : List (String × List ℤ) :=
  [("Stress", [before_data.stress, after_data.stress]),
   ("Energy", [before_data.energy, after_data.energy]),
   ("Focus", [before_data.focus, after_data.focus]),
   ("Sleep", [before_data.sleep, after_data.sleep]),
   ("Anxiety", [before_data.anxiety, after_data.anxiety]),
   ("Mood", [before_data.mood, after_data.mood]),
   ("Mindfulness", [before_data.mindfulness, after_data.mindfulness])]

/-- Python's `f"{v}/10"` cell used in the `create_pdf` summary tables. -/
def slash10 (v : ℤ) : String := toString v ++ "/10"

/-- Python's `f"{n:+d}"` formatting used in the Change column of the
`create_pdf` summary tables: nonnegative integers get an explicit `+`. -/
def fmtSigned (n : ℤ) : String :=
  if 0 ≤ n then "+" ++ toString n else toString n

/-- The `physical_data` table of `create_pdf` (src/main.py lines 468-480):
a header row followed by five metric rows. -/
def physical_data (before_data after_data : Assessment) : List (List String) :=
  [["Metric", "Before", "After", "Change"],
   ["Flexibility", slash10 before_data.flexibility, slash10 after_data.flexibility,
    fmtSigned (after_data.flexibility - before_data.flexibility)],
   ["Strength", slash10 before_data.strength, slash10 after_data.strength,
    fmtSigned (after_data.strength - before_data.strength)],
   ["Balance", slash10 before_data.balance, slash10 after_data.balance,
    fmtSigned (after_data.balance - before_data.balance)],
   ["Posture", slash10 before_data.posture, slash10 after_data.posture,
    fmtSigned (after_data.posture - before_data.posture)],
   ["Core Strength", slash10 before_data.core, slash10 after_data.core,
    fmtSigned (after_data.core - before_data.core)]]

/-- The `mental_data` table of `create_pdf` (src/main.py lines 501-513):
a header row followed by five metric rows. -/
def mental_data (before_data after_data : Assessment) : List (List String) :=
  [["Metric", "Before", "After", "Change"],
   ["Stress", slash10 before_data.stress, slash10 after_data.stress,
    fmtSigned (after_data.stress - before_data.stress)],
   ["Energy", slash10 before_data.energy, slash10 after_data.energy,
    fmtSigned (after_data.energy - before_data.energy)],
   ["Focus", slash10 before_data.focus, slash10 after_data.focus,
    fmtSigned (after_data.focus - before_data.focus)],
   ["Sleep", slash10 before_data.sleep, slash10 after_data.sleep,
    fmtSigned (after_data.sleep - before_data.sleep)],
   ["Mindfulness", slash10 before_data.mindfulness, slash10 after_data.mindfulness,
    fmtSigned (after_data.mindfulness - before_data.mindfulness)]]

example : slash10 7 = "7/10" := by decide
example : fmtSigned 0 = "+0" := by decide
example : fmtSigned (-2) = "-2" := by decide
example : (physical_data defaultAssessment defaultAssessment).length = 6 := by decide

/-- The prompt f-string of `generate_analysis` (src/main.py lines 136-230),
with each `{...}` interpolation replaced by the corresponding field
projection; `', '.join(...)` becomes `String.intercalate ", "`. -/
def analysisPrompt (before_data after_data : Assessment) (client_info : ClientInfo) : String :=
  "\n    As an expert yoga trainer and wellness analyst, provide a detailed progress analysis for:\n    \n    CLIENT PROFILE:\n    Name: "
  ++ client_info.name
  ++ "\n    Age: " ++ toString client_info.age
  ++ "\n    Occupation: " ++ client_info.occupation
  ++ "\n    Previous Yoga Experience: " ++ client_info.previous_yoga_experience
  ++ "\n    Primary Goals: " ++ String.intercalate ", " client_info.primary_goals
  ++ "\n    \n    COMPREHENSIVE ASSESSMENT COMPARISON:\n    \n    1. PHYSICAL METRICS ANALYSIS:\n    \n    Basic Metrics:"
  ++ "\n    Flexibility: Before " ++ toString before_data.flexibility ++ "/10 → After " ++ toString after_data.flexibility ++ "/10"
  ++ "\n    Strength: Before " ++ toString before_data.strength ++ "/10 → After " ++ toString after_data.strength ++ "/10"
  ++ "\n    Balance: Before " ++ toString before_data.balance ++ "/10 → After " ++ toString after_data.balance ++ "/10"
  ++ "\n    Pain Levels: Before " ++ toString before_data.pain ++ "/10 → After " ++ toString after_data.pain ++ "/10"
  ++ "\n    \n    Detailed Physical Assessment:"
  ++ "\n    Posture: Before " ++ toString before_data.posture ++ "/10 → After " ++ toString after_data.posture ++ "/10"
  ++ "\n    Breathing: Before " ++ toString before_data.breathing ++ "/10 → After " ++ toString after_data.breathing ++ "/10"
  ++ "\n    Spine Flexibility: Before " ++ toString before_data.spine ++ "/10 → After " ++ toString after_data.spine ++ "/10"
  ++ "\n    Hip Mobility: Before " ++ toString before_data.hips ++ "/10 → After " ++ toString after_data.hips ++ "/10"
  ++ "\n    Shoulder Mobility: Before " ++ toString before_data.shoulders ++ "/10 → After " ++ toString after_data.shoulders ++ "/10"
  ++ "\n    Core Strength: Before " ++ toString before_data.core ++ "/10 → After " ++ toString after_data.core ++ "/10"
  ++ "\n    \n    2. MENTAL & EMOTIONAL METRICS:\n    "
  ++ "\n    Stress Levels: Before " ++ toString before_data.stress ++ "/10 → After " ++ toString after_data.stress ++ "/10"
  ++ "\n    Energy Levels: Before " ++ toString before_data.energy ++ "/10 → After " ++ toString after_data.energy ++ "/10"
  ++ "\n    Focus & Clarity: Before " ++ toString before_data.focus ++ "/10 → After " ++ toString after_data.focus ++ "/10"
  ++ "\n    Sleep Quality: Before " ++ toString before_data.sleep ++ "/10 → After " ++ toString after_data.sleep ++ "/10"
  ++ "\n    Anxiety Levels: Before " ++ toString before_data.anxiety ++ "/10 → After " ++ toString after_data.anxiety ++ "/10"
  ++ "\n    Overall Mood: Before " ++ toString before_data.mood ++ "/10 → After " ++ toString after_data.mood ++ "/10"
  ++ "\n    Mindfulness: Before " ++ toString before_data.mindfulness ++ "/10 → After " ++ toString after_data.mindfulness ++ "/10"
  ++ "\n    \n    Lifestyle Factors:"
  ++ "\n    - Work Activity Level: " ++ client_info.work_activity_level
  ++ "\n    - Exercise Routine: " ++ client_info.exercise_routine
  ++ "\n    - Sleep Hours: " ++ toString client_info.sleep_hours
  ++ "\n    - Diet Type: " ++ client_info.diet_type
  ++ "\n    - Stress Sources: " ++ String.intercalate ", " client_info.stress_sources
  ++ "\n    \n    Initial Limitations/Symptoms:"
  ++ "\n    " ++ before_data.limitations
  ++ "\n    " ++ before_data.symptoms
  ++ "\n    \n    Current Notes:"
  ++ "\n    Before: " ++ before_data.notes
  ++ "\n    After: " ++ after_data.notes
  ++ "\n    \n    Please provide a detailed analysis with the following sections:\n"
  ++ "\n    1. EXECUTIVE SUMMARY"
  ++ "\n    Provide a concise overview of the client's overall progress and key achievements.\n"
  ++ "\n    2. PHYSICAL PROGRESS ANALYSIS"
  ++ "\n    - Detailed analysis of improvements in all physical metrics"
  ++ "\n    - Specific areas of notable improvement"
  ++ "\n    - Areas requiring continued attention"
  ++ "\n    \n    3. MENTAL & EMOTIONAL WELLNESS PROGRESS"
  ++ "\n    - Comprehensive analysis of mental and emotional improvements"
  ++ "\n    - Impact on daily life and wellbeing"
  ++ "\n    - Notable behavioral changes"
  ++ "\n    \n    4. KEY ACHIEVEMENTS"
  ++ "\n    List the top 3-5 most significant improvements observed."
  ++ "\n    \n    5. AREAS FOR FOCUS"
  ++ "\n    Identify 2-3 specific areas that need continued attention and work."
  ++ "\n    \n    6. PERSONALIZED RECOMMENDATIONS"
  ++ "\n    Provide 4-5 specific, actionable recommendations for:"
  ++ "\n    - Poses or exercises to practice"
  ++ "\n    - Lifestyle adjustments"
  ++ "\n    - Mental wellness practices"
  ++ "\n    - Sleep hygiene improvements (if applicable)"
  ++ "\n    \n    7. LONG-TERM OUTLOOK"
  ++ "\n    - Projected benefits if current progress continues"
  ++ "\n    - Potential milestones to work towards"
  ++ "\n    - Timeline expectations"
  ++ "\n    \n    8. MOTIVATIONAL INSIGHTS"
  ++ "\n    End with a personalized motivational message that:"
  ++ "\n    - Acknowledges their progress"
  ++ "\n    - Encourages continued dedication"
  ++ "\n    - Highlights their potential for further growth\n"
  ++ "\n    Please format the response clearly with headers and bullet points where appropriate."
  ++ "\n    Focus on being specific, actionable, and encouraging while maintaining a professional tone.\n    "

/-- Python `repr` of a string, as used when an f-string interpolates a
list of strings (quote escaping elided; inputs here are UI multiselect
labels without quotes). -/
def pyReprStr (s : String) : String := "'" ++ s ++ "'"

/-- Python `str` of a list of strings, as produced by the
`{client_info['dietary_restrictions']}` interpolation in
`generate_dietary_plan`. -/
def pyReprStrList (xs : List String) : String :=
  "[" ++ String.intercalate ", " (xs.map pyReprStr) ++ "]"

/-- The prompt f-string of `generate_dietary_plan` (src/main.py lines
323-369); note the body uses only `client_info` fields, never the two
assessment parameters. -/
def dietPrompt (client_info : ClientInfo) (before_data after_data : Assessment) : String :=
  "\n    As a professional nutritionist, create a detailed 7-day meal plan for:\n\n    CLIENT PROFILE:\n    Name: "
  ++ client_info.name
  ++ "\n    Height: " ++ toString client_info.height ++ " cm"
  ++ "\n    Weight: " ++ toString client_info.weight ++ " kg"
  ++ "\n    Dietary Restrictions: " ++ pyReprStrList client_info.dietary_restrictions
  ++ "\n    Health Goals: " ++ String.intercalate ", " client_info.health_goals
  ++ "\n    Food Allergies: " ++ client_info.food_allergies
  ++ "\n    Exercise Level: " ++ client_info.exercise_routine
  ++ "\n\n    Please provide a COMPLETE 7-day meal plan following this EXACT format for each day:\n"
  ++ "\n    [DAY]\n    Breakfast (7:00 AM)\n    Main: [Provide specific meal with portions]\n    Alternative: [Provide specific alternative meal]\n    Calories: [Exact number]\n    Protein: [X]g\n    Carbs: [X]g\n    Fat: [X]g\n    Prep Time: [X] mins\n"
  ++ "\n    Morning Snack (10:00 AM)\n    [Same format as breakfast]\n"
  ++ "\n    Lunch (12:30 PM)\n    [Same format as breakfast]\n"
  ++ "\n    Afternoon Snack (3:30 PM)\n    [Same format as breakfast]\n"
  ++ "\n    Dinner (7:00 PM)\n    [Same format as breakfast]\n"
  ++ "\n    IMPORTANT REQUIREMENTS:\n    1. Provide SPECIFIC meal descriptions with portions\n    2. Include EXACT nutrient values\n    3. Consider client's dietary restrictions and allergies\n    4. Keep total daily calories appropriate for their goals\n    5. Include realistic prep times\n    6. Ensure meals are practical and easy to prepare\n    7. Provide realistic alternatives for each meal\n"
  ++ "\n    Please maintain this exact format for all 7 days.\n    "

/-- A chat message as sent to the Groq chat-completion endpoint. -/
structure ChatMessage where
  role : String
  content : String
deriving DecidableEq

/-- The parameters of one `groq_client.chat.completions.create(...)`
call; `temperature` and `top_p` are exact rationals here (the Python
floats 0.7 and 0.95 are decimal literals). -/
structure ChatRequest where
  messages : List ChatMessage
  model : String
  temperature : ℚ
  max_tokens : ℕ
  top_p : ℚ
  stream : Bool
deriving DecidableEq

/-- One element of `response.choices`. -/
structure ChatChoice where
  message : ChatMessage
deriving DecidableEq

/-- A chat-completion response. -/
structure ChatResponse where
  choices : List ChatChoice
deriving DecidableEq

/-- The request built inside `generate_analysis` (src/main.py lines
232-239). -/
def analysisRequest (before_data after_data : Assessment) (client_info : ClientInfo) : ChatRequest :=
  { messages := [{ role := "user", content := analysisPrompt before_data after_data client_info }]
    model := "meta-llama/llama-4-maverick-17b-128e-instruct"
    temperature := 0.7, max_tokens := 3000, top_p := 0.95, stream := false }

/-- The request built inside `generate_dietary_plan` (src/main.py lines
371-378). -/
def dietRequest (client_info : ClientInfo) (before_data after_data : Assessment) : ChatRequest :=
  { messages := [{ role := "user", content := dietPrompt client_info before_data after_data }]
    model := "meta-llama/llama-4-maverick-17b-128e-instruct"
    temperature := 0.7, max_tokens := 3000, top_p := 0.95, stream := false }

/-- Embeds `generate_analysis` (src/main.py lines 135-241), with the network
client abstracted as an oracle `llm`. Returns the value of
`response.choices[0].message.content` (`none` models the IndexError on an
empty choice list) together with the list of chat-completion calls made. -/
def generate_analysis (llm : ChatRequest → ChatResponse)
    (before_data after_data : Assessment) (client_info : ClientInfo) :
    Option String × List ChatRequest :=
  let req := analysisRequest before_data after_data client_info
  let response := llm req
  ((response.choices.head?).map (fun c => c.message.content), [req])

/-- Embeds `generate_dietary_plan` (src/main.py lines 322-380), with the network
client abstracted as an oracle `llm`. -/
def generate_dietary_plan (llm : ChatRequest → ChatResponse)
    (client_info : ClientInfo) (before_data after_data : Assessment) :
    Option String × List ChatRequest :=
  let req := dietRequest client_info before_data after_data
  let response := llm req
  ((response.choices.head?).map (fun c => c.message.content), [req])

/-- Outcome of `get_groq_client`: either an initialized client holding the
resolved key, or the `st.error` + `st.stop()` path. -/
inductive GroqInit where
  | client (key : String)
  | halted (msg : String)
deriving DecidableEq

/-- Python truthiness of an optional string: `None` and `""` are falsy. -/
def pyTruthy : Option String → Bool
  | none => false
  | some s => !(s = "")

/-- The error text shown by `get_groq_client` when no key is found
(src/main.py lines 39-43). -/
def groqKeyErrMsg : String :=
  "\n            Groq API key not found. Please set it up:\n            1. Local development: Set GROQ_API_KEY environment variable\n            2. Streamlit Cloud: Add GROQ_API_KEY to your app secrets\n            "

/-- Embeds `get_groq_client` (src/main.py lines 27-46). `env` models
`os.getenv('GROQ_API_KEY')` and `secrets` models the optional
`st.secrets['GROQ_API_KEY']` entry (`none` when the key is absent). -/
def get_groq_client (env secrets : Option String) : GroqInit :=
  let api_key := env
  let api_key := if !pyTruthy api_key && secrets.isSome then secrets else api_key
  if !pyTruthy api_key then .halted groqKeyErrMsg
  else .client (api_key.getD "")

/-- The in-memory session state: the two assessment records and the
client profile (src/main.py lines 79-98). -/
structure SessionState where
  before_data : Assessment
  after_data : Assessment
  client_info : ClientInfo
deriving DecidableEq

/-- The form values read by the `Save Before Assessment` handler
(src/main.py lines 779-801). -/
structure BeforeForm where
  flexibility : ℤ
  strength : ℤ
  balance : ℤ
  pain : ℤ
  posture : ℤ
  breathing : ℤ
  spine : ℤ
  hips : ℤ
  shoulders : ℤ
  core : ℤ
  stress : ℤ
  energy : ℤ
  focus : ℤ
  sleep : ℤ
  anxiety : ℤ
  mood : ℤ
  mindfulness : ℤ
  notes : String
  limitations : String
  symptoms : String
deriving DecidableEq

/-- The form values read by the `Save After Assessment` handler
(src/main.py lines 836-856): no limitations or symptoms inputs exist on
the After tab. -/
structure AfterForm where
  flexibility : ℤ
  strength : ℤ
  balance : ℤ
  pain : ℤ
  posture : ℤ
  breathing : ℤ
  spine : ℤ
  hips : ℤ
  shoulders : ℤ
  core : ℤ
  stress : ℤ
  energy : ℤ
  focus : ℤ
  sleep : ℤ
  anxiety : ℤ
  mood : ℤ
  mindfulness : ℤ
  notes : String
deriving DecidableEq

/-- The `st.session_state.before_data.update({...})` performed by the
`Save Before Assessment` click (src/main.py lines 803-825): all twenty
keys of the record are written. -/
def saveBeforeClick (s : SessionState) (f : BeforeForm) : SessionState :=
  { s with before_data :=
      { s.before_data with
        flexibility := f.flexibility, strength := f.strength, balance := f.balance
        pain := f.pain, posture := f.posture, breathing := f.breathing
        spine := f.spine, hips := f.hips, shoulders := f.shoulders, core := f.core
        stress := f.stress, energy := f.energy, focus := f.focus, sleep := f.sleep
        anxiety := f.anxiety, mood := f.mood, mindfulness := f.mindfulness
        notes := f.notes, limitations := f.limitations, symptoms := f.symptoms } }

/-- The `st.session_state.after_data.update({...})` performed by the
`Save After Assessment` click (src/main.py lines 858-878): eighteen keys
are written; `limitations` and `symptoms` are not among them. -/
def saveAfterClick (s : SessionState) (f : AfterForm) : SessionState :=
  { s with after_data :=
      { s.after_data with
        flexibility := f.flexibility, strength := f.strength, balance := f.balance
        pain := f.pain, posture := f.posture, breathing := f.breathing
        spine := f.spine, hips := f.hips, shoulders := f.shoulders, core := f.core
        stress := f.stress, energy := f.energy, focus := f.focus, sleep := f.sleep
        anxiety := f.anxiety, mood := f.mood, mindfulness := f.mindfulness
        notes := f.notes } }

/-- Exception control flow of the `Save Before Assessment` handler
(src/main.py lines 803-826): the update and the `st.success` call run
with no `try`/`except`, so a raised exception propagates out of the
handler. `body` is the outcome of the update statement. -/
def saveBeforeHandlerRun (body : Except String Unit) : Except String (List String) :=
  match body with
  | .ok _ => .ok ["Before assessment saved!"]
  | .error e => .error e

/-- Exception control flow of the `Save After Assessment` handler
(src/main.py lines 858-879): likewise no `try`/`except`. -/
def saveAfterHandlerRun (body : Except String Unit) : Except String (List String) :=
  match body with
  | .ok _ => .ok ["After assessment saved!"]
  | .error e => .error e

/-- The completeness test guarding the `Generate Analysis` button
(src/main.py lines 885-886): Python `not x` on the integer scores, i.e.
both flexibility values equal 0. -/
def analysisGateBlocks (before_data after_data : Assessment) : Bool :=
  before_data.flexibility == 0 && after_data.flexibility == 0

/-- The error text of the `Generate Analysis` gate (src/main.py line 887). -/
def gateErrMsg : String :=
  "Please complete and save both before and after assessments first!"

/-- The `Generate Analysis` click handler (src/main.py lines 884-935):
if the gate blocks, `st.error` is shown and generation is skipped;
otherwise the whole generation block runs inside `try`/`except`, whose
outcome is `body` (the generated analysis text on success). The boolean
records whether generation was attempted; the `Except` layer is the
exception flow out of the handler. -/
def generateAnalysisClick (before_data after_data : Assessment)
    (body : Except String String) : Bool × Except String (List String) :=
  if analysisGateBlocks before_data after_data then
    (false, .ok [gateErrMsg])
  else
    match body with
    | .ok analysis => (true, .ok ["Your Progress Journey", analysis])
    | .error e => (true, .ok ["An error occurred: " ++ e])

/-- The `Generate Personalized Diet Plan` click handler (src/main.py
lines 978-1002): the whole body runs inside `try`/`except`. -/
def generateDietClick (body : Except String String) : Except String (List String) :=
  match body with
  | .ok plan => .ok ["Your Personalized Diet Plan", plan]
  | .error e => .ok ["An error occurred while generating the diet plan: " ++ e]

/-- Python's substring test `sub in s`. -/
def strContains (s sub : String) : Bool :=
  s.data.tails.any (fun t => sub.data.isPrefixOf t)

example : strContains "Breakfast (7:00 AM)" "Breakfast" = true := by decide
example : strContains "Monday" "Breakfast" = false := by decide

/-- Splitting a character list at every occurrence of a separator
character (the accumulator holds the current chunk reversed). -/
def splitCharAux (sep : Char) : List Char → List Char → List (List Char)
  | [], acc => [acc.reverse]
  | c :: cs, acc =>
    if c = sep then acc.reverse :: splitCharAux sep cs []
    else splitCharAux sep cs (c :: acc)

/-- Python's `s.split(sep)` for a one-character separator; in particular
`dietary_plan.split('\n')` (src/main.py line 620) and `line.split(':')`
(line 670). -/
def pySplitChar (sep : Char) (s : String) : List String :=
  (splitCharAux sep s.data []).map List.asString

example : pySplitChar '\n' "a\nbc\n" = ["a", "bc", ""] := by decide
example : pySplitChar ':' "Prep Time: 30 mins" = ["Prep Time", " 30 mins"] := by decide

/-- The whitespace characters removed by Python's `str.strip()`. -/
def pyIsSpace (c : Char) : Bool :=
  c = ' ' || c = '\t' || c = '\n' || c = '\r' || c = '\x0b' || c = '\x0c'

/-- Python's `line.strip()`. -/
def pyStrip (s : String) : String :=
  (((s.data.dropWhile pyIsSpace).reverse.dropWhile pyIsSpace).reverse).asString

example : pyStrip "  Main: oats \n" = "Main: oats" := by decide

/-- Python's `line.startswith(p)`. -/
def pyStartsWith (s p : String) : Bool :=
  p.data.isPrefixOf s.data

example : pyStartsWith "Main: oats" "Main:" = true := by decide

/-- The day-name list tested by the parse loop of `create_diet_pdf`
(src/main.py line 629). -/
def dayNames : List String :=
  ["Monday", "Tuesday", "Wednesday", "Thursday", "Friday", "Saturday", "Sunday"]

/-- The meal-name list tested by the parse loop of `create_diet_pdf`
(src/main.py lines 655 and 662-663). -/
def mealNames : List String :=
  ["Breakfast", "Morning Snack", "Lunch", "Afternoon Snack", "Dinner"]

/-- The header row installed when a new day starts (src/main.py line 650). -/
def mealHeaderRow : List (List String) :=
  [["Meal Time", "Details", "Nutrients", "Prep Time"]]

/-- Result of the inner meal-collection loop of `create_diet_pdf`
(src/main.py lines 661-673): how many lines were consumed, the collected
detail and nutrient lines, and the prep time. -/
structure MealScan where
  consumed : ℕ
  details : List String
  nutrients : List String
  prep_time : String
deriving DecidableEq

/-- The inner `while` of `create_diet_pdf` (src/main.py lines 662-673),
recursing over the remaining (unstripped) lines. The guard tests the
unstripped current line for a meal name; the body classifies the stripped
line, advances, and breaks at end of input or after an empty line. -/
def collectMeal : List String → List String → List String → String → MealScan
  | [], details, nutrients, pt => ⟨0, details, nutrients, pt⟩
  | cur :: rest, details, nutrients, pt =>
    if mealNames.any (fun m => strContains cur m) then ⟨0, details, nutrients, pt⟩
    else
      let line := pyStrip cur
      let next :=
        if pyStartsWith line "Main:" || pyStartsWith line "Alternative:" then
          (details ++ [line], nutrients, pt)
        else if pyStartsWith line "Calories:" || pyStartsWith line "Protein:"
            || pyStartsWith line "Carbs:" || pyStartsWith line "Fat:" then
          (details, nutrients ++ [line], pt)
        else if pyStartsWith line "Prep Time:" then
          (details, nutrients, pyStrip ((pySplitChar ':' line).getD 1 ""))
        else (details, nutrients, pt)
      if rest.isEmpty || line = "" then ⟨1, next.1, next.2.1, next.2.2⟩
      else
        let r := collectMeal rest next.1 next.2.1 next.2.2
        ⟨r.consumed + 1, r.details, r.nutrients, r.prep_time⟩

/-- The `if meal_data and len(meal_data) > 1` table emission of
`create_diet_pdf` (src/main.py lines 631-646 and 688-702). -/
def flushMealTable (meal_data : Option (List (List String)))
    (tables : List (List (List String))) : List (List (List String)) :=
  match meal_data with
  | some md => if 1 < md.length then tables ++ [md] else tables
  | none => tables

/-- The outer `while i < len(lines)` parse loop of `create_diet_pdf`
(src/main.py lines 615-702), over the list of remaining lines, with a
fuel bound on the number of iterations. `none` means the fuel ran out, so
`∀ fuel, ... = none` states that the Python loop never exits. On a meal
line the position advances by exactly the lines consumed by
`collectMeal`; appending a row when `meal_data` is `None` cannot occur
(the collection loop's guard fails at the meal header itself, so
`details` stays empty), and is modelled as leaving `meal_data` unchanged. -/
def parseDietLoop : ℕ → List String → Option (List (List String)) →
    List (List (List String)) → Option (List (List (List String)))
  | 0, _, _, _ => none
  | _ + 1, [], meal_data, tables => some (flushMealTable meal_data tables)
  | fuel + 1, cur :: rest, meal_data, tables =>
    let line := pyStrip cur
    if line = "" then
      parseDietLoop fuel rest meal_data tables
    else if dayNames.any (fun d => strContains line d) then
      parseDietLoop fuel rest (some mealHeaderRow) (flushMealTable meal_data tables)
    else if mealNames.any (fun m => strContains line m) then
      let r := collectMeal (cur :: rest) [] [] ""
      let meal_data' :=
        if !r.details.isEmpty && !r.nutrients.isEmpty then
          meal_data.map (fun md =>
            md ++ [[line, String.intercalate "\n" r.details,
                    String.intercalate "\n" r.nutrients, r.prep_time]])
        else meal_data
      parseDietLoop fuel ((cur :: rest).drop r.consumed) meal_data' tables
    else
      parseDietLoop fuel rest meal_data tables

/-- The table-extraction phase of `create_diet_pdf` (src/main.py lines
615-702) applied to a dietary-plan text: split on newlines and run the
parse loop from the start with `meal_data = None`. -/
def create_diet_pdf_tables (dietary_plan : String) (fuel : ℕ) :
    Option (List (List (List String))) :=
  parseDietLoop fuel (pySplitChar '\n' dietary_plan) none []

example : create_diet_pdf_tables "no relevant lines at all" 5 = some [] := by decide
example : create_diet_pdf_tables "Monday\nnothing else" 5 = some [] := by decide
example : create_diet_pdf_tables "Breakfast (7:00 AM)" 50 = none := by decide

/-- The after-assessment fields read by the `generate_analysis` prompt
(the seventeen scores and `notes`); `limitations` and `symptoms` of the
after record never appear in the f-string. -/
def restrictAfterUsed (a : Assessment) : Assessment :=
  { defaultAssessment with
    flexibility := a.flexibility, strength := a.strength, balance := a.balance
    pain := a.pain, posture := a.posture, breathing := a.breathing
    spine := a.spine, hips := a.hips, shoulders := a.shoulders, core := a.core
    stress := a.stress, energy := a.energy, focus := a.focus, sleep := a.sleep
    anxiety := a.anxiety, mood := a.mood, mindfulness := a.mindfulness
    notes := a.notes }

/-- The client-profile fields read by the `generate_analysis` prompt. -/
def restrictClientAnalysisUsed (ci : ClientInfo) : ClientInfo :=
  { defaultClientInfo with
    name := ci.name, age := ci.age, occupation := ci.occupation
    previous_yoga_experience := ci.previous_yoga_experience
    primary_goals := ci.primary_goals
    work_activity_level := ci.work_activity_level
    exercise_routine := ci.exercise_routine, sleep_hours := ci.sleep_hours
    diet_type := ci.diet_type, stress_sources := ci.stress_sources }

/-- The client-profile fields read by the `generate_dietary_plan` prompt. -/
def restrictClientDietUsed (ci : ClientInfo) : ClientInfo :=
  { defaultClientInfo with
    name := ci.name, height := ci.height, weight := ci.weight
    dietary_restrictions := ci.dietary_restrictions
    health_goals := ci.health_goals, food_allergies := ci.food_allergies
    exercise_routine := ci.exercise_routine }

/-- The tuple of chat-completion parameters of one request. -/
def llmCallParams (r : ChatRequest) : String × ℚ × ℕ × ℚ × Bool :=
  (r.model, r.temperature, r.max_tokens, r.top_p, r.stream)

/-- The fixed parameter tuple both generators always use. -/
def fixedLlmParams : String × ℚ × ℕ × ℚ × Bool :=
  ("meta-llama/llama-4-maverick-17b-128e-instruct", 0.7, 3000, 0.95, false)

/-- Concatenating strings concatenates their character data. -/
theorem string_data_append (s t : String) : (s ++ t).data = s.data ++ t.data := by
  cases s; cases t; rfl

/-- Every assessment field set to 10 except flexibility, which is 0, with
nonempty text fields: a record that is filled in everywhere but has a
zero flexibility score. -/
def filledExceptFlex : Assessment :=
  { flexibility := 0, strength := 10, balance := 10, pain := 10, posture := 10
    breathing := 10, spine := 10, hips := 10, shoulders := 10, core := 10
    stress := 10, energy := 10, focus := 10, sleep := 10, anxiety := 10
    mood := 10, mindfulness := 10, notes := "n", limitations := "l", symptoms := "s" }

/-- The summary-table rows of the amended claim C1: metric label with its
before and after scores, for the five physical metrics `create_pdf`
actually tabulates. -/
def physicalSummaryRows (b a : Assessment) : List (String × ℤ × ℤ) :=
  [("Flexibility", b.flexibility, a.flexibility),
   ("Strength", b.strength, a.strength),
   ("Balance", b.balance, a.balance),
   ("Posture", b.posture, a.posture),
   ("Core Strength", b.core, a.core)]

/-- The summary-table rows of the amended claim C1 for the five mental
metrics `create_pdf` actually tabulates. -/
def mentalSummaryRows (b a : Assessment) : List (String × ℤ × ℤ) :=
  [("Stress", b.stress, a.stress),
   ("Energy", b.energy, a.energy),
   ("Focus", b.focus, a.focus),
   ("Sleep", b.sleep, a.sleep),
   ("Mindfulness", b.mindfulness, a.mindfulness)]

/-- Claim C1 as stated is false: it requires one data row per physical
metric of the assessment (ten rows) and one per mental metric (seven
rows), but at the all-zero input the `create_pdf` summary tables have
five data rows each (header plus five): pain, breathing, spine, hips and
shoulders are missing from the physical table, and anxiety and mood from
the mental table. -/
theorem c1_tables_counterexample :
    ((physical_data defaultAssessment defaultAssessment).length = 1 + 5 ∧
     (mental_data defaultAssessment defaultAssessment).length = 1 + 5) ∧
    ¬((physical_data defaultAssessment defaultAssessment).length = 1 + 10 ∧
      (mental_data defaultAssessment defaultAssessment).length = 1 + 7) := by
  decide

/-- Amended claim C1: for every pair of assessment records, each summary
table of the progress-report PDF is the fixed header row followed by one
row per tabulated metric — Flexibility, Strength, Balance, Posture, Core
Strength for the physical table and Stress, Energy, Focus, Sleep,
Mindfulness for the mental table — each row showing the metric's before
and after values (as `v/10`) and their difference. -/
theorem c1_tables_amended (b a : Assessment) :
    physical_data b a =
      ["Metric", "Before", "After", "Change"] ::
        (physicalSummaryRows b a).map
          (fun r => [r.1, slash10 r.2.1, slash10 r.2.2, fmtSigned (r.2.2 - r.2.1)]) ∧
    mental_data b a =
      ["Metric", "Before", "After", "Change"] ::
        (mentalSummaryRows b a).map
          (fun r => [r.1, slash10 r.2.1, slash10 r.2.2, fmtSigned (r.2.2 - r.2.1)]) :=
  ⟨rfl, rfl⟩

set_option maxRecDepth 8000 in
/-- Claim C2: the prompt strings are pure, deterministic functions of
their inputs: whenever the fields each prompt reads agree (for
`generate_analysis`: the entire before record, the seventeen scores and
notes of the after record, and the ten profile fields it mentions; for
`generate_dietary_plan`: the seven profile fields it mentions, with both
assessment records entirely irrelevant), the constructed prompt strings
are equal. -/
theorem c2_prompts_deterministic
    (b a : Assessment) (ci : ClientInfo) (b2 a2 : Assessment) (ci2 : ClientInfo)
    (hb : b = b2) (ha : restrictAfterUsed a = restrictAfterUsed a2)
    (hc : restrictClientAnalysisUsed ci = restrictClientAnalysisUsed ci2) :
    analysisPrompt b a ci = analysisPrompt b2 a2 ci2 ∧
    ∀ (cd cd2 : ClientInfo) (bd ad bd2 ad2 : Assessment),
      restrictClientDietUsed cd = restrictClientDietUsed cd2 →
      dietPrompt cd bd ad = dietPrompt cd2 bd2 ad2 := by
  constructor
  · have e1 : analysisPrompt b a ci
        = analysisPrompt b (restrictAfterUsed a) (restrictClientAnalysisUsed ci) := rfl
    have e2 : analysisPrompt b2 a2 ci2
        = analysisPrompt b2 (restrictAfterUsed a2) (restrictClientAnalysisUsed ci2) := rfl
    rw [e1, e2, hb, ha, hc]
  · intro cd cd2 bd ad bd2 ad2 hcd
    have e1 : dietPrompt cd bd ad
        = dietPrompt (restrictClientDietUsed cd) bd ad := rfl
    have e2 : dietPrompt cd2 bd2 ad2
        = dietPrompt (restrictClientDietUsed cd2) bd2 ad2 := rfl
    rw [e1, e2, hcd]
    rfl

/-- Witness for C2 at concrete inputs: changing only fields the prompts
never read (after-record limitations and symptoms, profile
specific_concerns and target_weight for the analysis prompt; occupation
and both assessment records for the diet prompt) leaves the prompts
unchanged. -/
theorem c2_witness :
    analysisPrompt defaultAssessment defaultAssessment defaultClientInfo =
      analysisPrompt defaultAssessment
        { defaultAssessment with limitations := "knee pain", symptoms := "stiff" }
        { defaultClientInfo with specific_concerns := "x", target_weight := 99 } ∧
    dietPrompt defaultClientInfo defaultAssessment defaultAssessment =
      dietPrompt { defaultClientInfo with occupation := "chef" }
        { defaultAssessment with flexibility := 9 } defaultAssessment := by
  have h := c2_prompts_deterministic defaultAssessment defaultAssessment defaultClientInfo
    defaultAssessment
    { defaultAssessment with limitations := "knee pain", symptoms := "stiff" }
    { defaultClientInfo with specific_concerns := "x", target_weight := 99 }
    rfl rfl rfl
  exact ⟨h.1, h.2 defaultClientInfo { defaultClientInfo with occupation := "chef" }
    defaultAssessment defaultAssessment { defaultAssessment with flexibility := 9 }
    defaultAssessment rfl⟩

/-- Claim C3 is wrong about the code (the code, not the claim, is at
fault): on any plan text containing a meal-header line — including the
exact format the `generate_dietary_plan` prompt demands — the parse loop
of `create_diet_pdf` never terminates. At the meal line the inner
collection loop's guard `not any(next_meal in lines[i] ...)` is already
false for the header line itself, so `i` never advances and `continue`
re-enters the outer loop in an identical state: for every iteration bound
the loop is still running. -/
theorem c3_diet_parse_loop_diverges (fuel : ℕ) :
    create_diet_pdf_tables "Breakfast (7:00 AM)" fuel = none := by
  induction fuel with
  | zero => rfl
  | succ n ih =>
    have step : create_diet_pdf_tables "Breakfast (7:00 AM)" (n + 1)
        = create_diet_pdf_tables "Breakfast (7:00 AM)" n := rfl
    rw [step]; exact ih

/-- Claim C4: each invocation of `generate_analysis` and of
`generate_dietary_plan` performs exactly one chat-completion call, always
with model `meta-llama/llama-4-maverick-17b-128e-instruct`, temperature
0.7, max_tokens 3000, top_p 0.95 and stream=False, whatever the input
data; the returned value is the content of the response's first choice's
message. -/
theorem c4_single_fixed_call
    (llmA llmD : ChatRequest → ChatResponse)
    (b a bd ad : Assessment) (ci cid : ClientInfo) :
    (generate_analysis llmA b a ci).2.map llmCallParams = [fixedLlmParams] ∧
    (generate_dietary_plan llmD cid bd ad).2.map llmCallParams = [fixedLlmParams] ∧
    (∀ c cs, (llmA (analysisRequest b a ci)).choices = c :: cs →
      (generate_analysis llmA b a ci).1 = some c.message.content) ∧
    (∀ c cs, (llmD (dietRequest cid bd ad)).choices = c :: cs →
      (generate_dietary_plan llmD cid bd ad).1 = some c.message.content) := by
  refine ⟨rfl, rfl, ?_, ?_⟩ <;> intro c cs h <;>
    simp [generate_analysis, generate_dietary_plan, h]

/-- An oracle returning a fixed single-choice response, for the C4
witness. -/
def witnessLlm : ChatRequest → ChatResponse :=
  fun _ => { choices := [{ message := { role := "assistant", content := "ok" } }] }

/-- Witness for C4 at concrete inputs: with a one-choice oracle, both
generators return that choice's content. -/
theorem c4_witness :
    (generate_analysis witnessLlm defaultAssessment defaultAssessment
      defaultClientInfo).1 = some "ok" ∧
    (generate_dietary_plan witnessLlm defaultClientInfo defaultAssessment
      defaultAssessment).1 = some "ok" := by
  have h := c4_single_fixed_call witnessLlm witnessLlm defaultAssessment defaultAssessment
    defaultAssessment defaultAssessment defaultClientInfo defaultClientInfo
  exact ⟨h.2.2.1 { message := { role := "assistant", content := "ok" } } [] rfl,
         h.2.2.2 { message := { role := "assistant", content := "ok" } } [] rfl⟩

/-- Claim C5: `create_comparison_charts` builds exactly the ten-key
physical dictionary and the seven-key mental dictionary, each key mapping
to the pair [before value, after value] of its field. -/
theorem c5_chart_dicts (b a : Assessment) :
    (physical_metrics b a).map Prod.fst =
      ["Flexibility", "Strength", "Balance", "Pain Level", "Posture",
       "Breathing", "Spine", "Hips", "Shoulders", "Core"] ∧
    (physical_metrics b a).lookup "Flexibility" = some [b.flexibility, a.flexibility] ∧
    (physical_metrics b a).lookup "Strength" = some [b.strength, a.strength] ∧
    (physical_metrics b a).lookup "Balance" = some [b.balance, a.balance] ∧
    (physical_metrics b a).lookup "Pain Level" = some [b.pain, a.pain] ∧
    (physical_metrics b a).lookup "Posture" = some [b.posture, a.posture] ∧
    (physical_metrics b a).lookup "Breathing" = some [b.breathing, a.breathing] ∧
    (physical_metrics b a).lookup "Spine" = some [b.spine, a.spine] ∧
    (physical_metrics b a).lookup "Hips" = some [b.hips, a.hips] ∧
    (physical_metrics b a).lookup "Shoulders" = some [b.shoulders, a.shoulders] ∧
    (physical_metrics b a).lookup "Core" = some [b.core, a.core] ∧
    (mental_metrics b a).map Prod.fst =
      ["Stress", "Energy", "Focus", "Sleep", "Anxiety", "Mood", "Mindfulness"] ∧
    (mental_metrics b a).lookup "Stress" = some [b.stress, a.stress] ∧
    (mental_metrics b a).lookup "Energy" = some [b.energy, a.energy] ∧
    (mental_metrics b a).lookup "Focus" = some [b.focus, a.focus] ∧
    (mental_metrics b a).lookup "Sleep" = some [b.sleep, a.sleep] ∧
    (mental_metrics b a).lookup "Anxiety" = some [b.anxiety, a.anxiety] ∧
    (mental_metrics b a).lookup "Mood" = some [b.mood, a.mood] ∧
    (mental_metrics b a).lookup "Mindfulness" = some [b.mindfulness, a.mindfulness] := by
  refine ⟨rfl, rfl, rfl, rfl, rfl, rfl, rfl, rfl, rfl, rfl, rfl,
    rfl, rfl, rfl, rfl, rfl, rfl, rfl, rfl⟩

/-- Claim C6 as stated is false: the `Save Before Assessment` and `Save
After Assessment` handlers contain no `try`/`except`, so an exception
raised during the click propagates instead of being caught and shown via
`st.error`. -/
theorem c6_save_handler_counterexample :
    saveBeforeHandlerRun (Except.error "boom") = Except.error "boom" ∧
    saveAfterHandlerRun (Except.error "boom") = Except.error "boom" ∧
    ¬∃ msgs, saveBeforeHandlerRun (Except.error "boom") = Except.ok msgs := by
  refine ⟨rfl, rfl, ?_⟩
  rintro ⟨msgs, hmsgs⟩
  simp [saveBeforeHandlerRun] at hmsgs

/-- Amended claim C6: only the two generation buttons catch failures at
the top level of their handlers: any exception inside the `Generate
Analysis` or `Generate Personalized Diet Plan` block is caught there and
surfaced as an on-screen error message, while the two save handlers have
no exception handling at all and re-raise. -/
theorem c6_amended_generate_handlers_catch
    (b a : Assessment) (g d : Except String String) (e : String) :
    (∃ msgs, (generateAnalysisClick b a g).2 = Except.ok msgs) ∧
    (∃ msgs, generateDietClick d = Except.ok msgs) ∧
    (analysisGateBlocks b a = false →
      (generateAnalysisClick b a (Except.error e)).2 =
        Except.ok ["An error occurred: " ++ e]) ∧
    generateDietClick (Except.error e) =
      Except.ok ["An error occurred while generating the diet plan: " ++ e] ∧
    (∀ e2, saveBeforeHandlerRun (Except.error e2) = Except.error e2) ∧
    (∀ e2, saveAfterHandlerRun (Except.error e2) = Except.error e2) := by
  refine ⟨?_, ?_, ?_, rfl, fun e2 => rfl, fun e2 => rfl⟩
  · unfold generateAnalysisClick
    by_cases hb : analysisGateBlocks b a
    · simp [hb]
    · simp [hb]; cases g <;> simp
  · cases d <;> exact ⟨_, rfl⟩
  · intro hb; simp [generateAnalysisClick, hb]

/-- Witness for the amended C6 at a concrete input: with a nonzero
flexibility score an exception in the generation block is surfaced as the
on-screen error message. -/
theorem c6_amended_witness :
    (generateAnalysisClick { defaultAssessment with flexibility := 1 } defaultAssessment
      (Except.error "boom")).2 = Except.ok ["An error occurred: " ++ "boom"] := by
  have h := c6_amended_generate_handlers_catch
    { defaultAssessment with flexibility := 1 } defaultAssessment
    (Except.error "boom") (Except.error "boom") "boom"
  exact h.2.2.1 rfl

/-- Claim C7: `get_groq_client` consults the environment variable first
and the secrets store only when the environment value is absent or empty;
it returns an initialized client exactly when one of the two lookups
yields a nonempty key (Python truthiness), preferring the environment
value, and otherwise shows the error text and halts. -/
theorem c7_api_key_resolution (env secrets : Option String) :
    ((∃ k, get_groq_client env secrets = .client k) ↔
      (pyTruthy env = true ∨ pyTruthy secrets = true)) ∧
    (pyTruthy env = true → get_groq_client env secrets = .client (env.getD "")) ∧
    (pyTruthy env = false → pyTruthy secrets = true →
      get_groq_client env secrets = .client (secrets.getD "")) ∧
    (pyTruthy env = false → pyTruthy secrets = false →
      get_groq_client env secrets = .halted groqKeyErrMsg) := by
  rcases env with _ | s <;> rcases secrets with _ | t
  · simp [get_groq_client, pyTruthy]
  · by_cases ht : t = "" <;> simp [get_groq_client, pyTruthy, ht]
  · by_cases hs : s = "" <;> simp [get_groq_client, pyTruthy, hs]
  · by_cases hs : s = "" <;> by_cases ht : t = "" <;>
      simp [get_groq_client, pyTruthy, hs, ht]

/-- Witness for C7 at concrete inputs: environment key wins, secrets are
the fallback, and with neither key the function halts with the error
text. -/
theorem c7_witness :
    get_groq_client (some "envkey") (some "secretkey") = .client "envkey" ∧
    get_groq_client none (some "secretkey") = .client "secretkey" ∧
    get_groq_client (some "") none = .halted groqKeyErrMsg := by
  refine ⟨?_, ?_, ?_⟩
  · exact (c7_api_key_resolution (some "envkey") (some "secretkey")).2.1 rfl
  · exact (c7_api_key_resolution none (some "secretkey")).2.2.1 rfl rfl
  · exact (c7_api_key_resolution (some "") none).2.2.2 rfl rfl

/-- Claim C8: each save button overwrites only its own record. `Save
Before Assessment` sets every field of `before_data` to the form values
and leaves `after_data` and `client_info` untouched; `Save After
Assessment` sets the eighteen written fields of `after_data`, never
touches its `limitations` or `symptoms` keys, and leaves `before_data`
and `client_info` untouched. -/
theorem c8_save_buttons_frame (s : SessionState) (f : BeforeForm) (g : AfterForm) :
    (saveBeforeClick s f).after_data = s.after_data ∧
    (saveBeforeClick s f).client_info = s.client_info ∧
    (saveBeforeClick s f).before_data =
      { flexibility := f.flexibility, strength := f.strength, balance := f.balance
        pain := f.pain, posture := f.posture, breathing := f.breathing
        spine := f.spine, hips := f.hips, shoulders := f.shoulders, core := f.core
        stress := f.stress, energy := f.energy, focus := f.focus, sleep := f.sleep
        anxiety := f.anxiety, mood := f.mood, mindfulness := f.mindfulness
        notes := f.notes, limitations := f.limitations, symptoms := f.symptoms } ∧
    (saveAfterClick s g).before_data = s.before_data ∧
    (saveAfterClick s g).client_info = s.client_info ∧
    (saveAfterClick s g).after_data.limitations = s.after_data.limitations ∧
    (saveAfterClick s g).after_data.symptoms = s.after_data.symptoms ∧
    (saveAfterClick s g).after_data =
      { s.after_data with
        flexibility := g.flexibility, strength := g.strength, balance := g.balance
        pain := g.pain, posture := g.posture, breathing := g.breathing
        spine := g.spine, hips := g.hips, shoulders := g.shoulders, core := g.core
        stress := g.stress, energy := g.energy, focus := g.focus, sleep := g.sleep
        anxiety := g.anxiety, mood := g.mood, mindfulness := g.mindfulness
        notes := g.notes } :=
  ⟨rfl, rfl, rfl, rfl, rfl, rfl, rfl, rfl⟩

/-- Claim C9: the completeness check of the `Generate Analysis` handler
inspects only the two flexibility values: the error is shown and
generation skipped exactly when both are 0 (Python falsiness of the
scores); a record filled everywhere except flexibility is still rejected,
and a single nonzero flexibility lets generation proceed. -/
theorem c9_gate_flexibility_only (b a : Assessment) (g : Except String String) :
    (generateAnalysisClick b a g = (false, Except.ok [gateErrMsg]) ↔
      (b.flexibility = 0 ∧ a.flexibility = 0)) ∧
    analysisGateBlocks b a =
      analysisGateBlocks { defaultAssessment with flexibility := b.flexibility }
        { defaultAssessment with flexibility := a.flexibility } ∧
    analysisGateBlocks filledExceptFlex filledExceptFlex = true ∧
    analysisGateBlocks { defaultAssessment with flexibility := 1 } defaultAssessment
      = false := by
  refine ⟨?_, rfl, rfl, rfl⟩
  unfold generateAnalysisClick analysisGateBlocks
  by_cases hb : b.flexibility = 0 <;> by_cases ha : a.flexibility = 0 <;>
    cases g <;> simp [hb, ha]

/-- Claim C10: in both summary tables of the progress-report PDF the
Change column of every listed metric is the exact integer difference
after minus before, rendered with an explicit leading sign (`+` for
nonnegative differences, so `+0` for equal values, `-` for negative
ones). -/
theorem c10_change_column (b a : Assessment) :
    ((physical_data b a).drop 1).map (fun r => r.getD 3 "") =
      [fmtSigned (a.flexibility - b.flexibility), fmtSigned (a.strength - b.strength),
       fmtSigned (a.balance - b.balance), fmtSigned (a.posture - b.posture),
       fmtSigned (a.core - b.core)] ∧
    ((mental_data b a).drop 1).map (fun r => r.getD 3 "") =
      [fmtSigned (a.stress - b.stress), fmtSigned (a.energy - b.energy),
       fmtSigned (a.focus - b.focus), fmtSigned (a.sleep - b.sleep),
       fmtSigned (a.mindfulness - b.mindfulness)] ∧
    fmtSigned 0 = "+0" ∧ fmtSigned 3 = "+3" ∧ fmtSigned (-2) = "-2" ∧
    (∀ n : ℤ, (fmtSigned n).data.head? = some (if 0 ≤ n then '+' else '-')) := by
  refine ⟨rfl, rfl, by decide, by decide, by decide, ?_⟩
  intro n
  unfold fmtSigned
  rcases n with m | m
  · rw [if_pos (show (0 : ℤ) ≤ Int.ofNat m from Int.ofNat_zero_le m),
        if_pos (show (0 : ℤ) ≤ Int.ofNat m from Int.ofNat_zero_le m),
        string_data_append]
    rfl
  · rw [if_neg (show ¬(0 : ℤ) ≤ Int.negSucc m from
          Int.not_le.mpr (Int.negSucc_lt_zero m)),
        if_neg (show ¬(0 : ℤ) ≤ Int.negSucc m from
          Int.not_le.mpr (Int.negSucc_lt_zero m))]
    show (("-" ++ toString (m + 1)).data).head? = some '-'
    rw [string_data_append]
    rfl
